import Mathlib

/-!
Verification of the Nocodb MCP server (src/nocodb_mcp_server.py) against its
natural-language specification.  The Python module is shallowly embedded: the
HTTP backend is a parameter `net : Request → NetResult`, exceptions become an
explicit `PyError` sum threaded through `Except`, and each MCP operation is a
total Lean function returning the JSON result envelope together with the list
of HTTP requests it issued and flags recording whether the httpx client was
acquired and closed.
-/

namespace NocodbMCP

/-- JSON values.  Numbers are modelled as integers: no claim depends on
non-integral numeric bodies (the delete normalization formats either kind the
same way). -/
inductive Json where
  | null
  | bool (b : Bool)
  | num (n : Int)
  | str (s : String)
  | arr (elems : List Json)
  | obj (fields : List (String × Json))

/-- Python truthiness of a JSON value (`if not data:` and friends):
None, False, 0, "", [], {} are falsy. -/
def Json.pyTruthy : Json → Bool
  | .null => false
  | .bool b => b
  | .num n => n != 0
  | .str s => s != ""
  | .arr xs => !xs.isEmpty
  | .obj fs => !fs.isEmpty

/-- Whether the value is a JSON mapping (a Python dict). -/
def Json.isObj : Json → Bool
  | .obj _ => true
  | _ => false

/-- Whether the value is a JSON sequence (a Python list), for
`isinstance(data, list)`. -/
def Json.isArr : Json → Bool
  | .arr _ => true
  | _ => false

/-- First binding of a key in a field list (Python dicts cannot repeat keys;
the embedding keeps fields as an association list). -/
def dictFind (fs : List (String × Json)) (k : String) : Option Json :=
  (fs.find? (fun p => p.fst == k)).map (fun p => p.snd)

/-- `d.get(k)`-style lookup on a JSON value: `none` when the value is not a
mapping or the key is absent. -/
def Json.field (j : Json) (k : String) : Option Json :=
  match j with
  | .obj fs => dictFind fs k
  | _ => none

/-- Python `str()` of a JSON value as used in f-string URL interpolation.
Scalars are rendered exactly; the rendering of containers is abstracted (the
code only ever interpolates the scalar table id). -/
def fstr : Json → String
  | .null => "None"
  | .bool true => "True"
  | .bool false => "False"
  | .num n => toString n
  | .str s => s
  | .arr _ => "<list>"
  | .obj _ => "<dict>"

/-- Truthiness of an optional string parameter: `None` and `""` are falsy. -/
def optStrTruthy : Option String → Bool
  | none => false
  | some s => s != ""

/-- Truthiness of the optional `bulk_ids` list: `None` and `[]` are falsy. -/
def optIdsTruthy : Option (List String) → Bool
  | none => false
  | some ids => !ids.isEmpty

/-- Truthiness of the optional `data` parameter of `update_records`. -/
def optJsonTruthy : Option Json → Bool
  | none => false
  | some j => j.pyTruthy

/-- Python `str.capitalize()`: first character upper-cased, the rest
lower-cased (ASCII case mapping; the claims only involve ASCII titles). -/
def pyCapitalize (s : String) : String :=
  match s.data with
  | [] => ""
  | c :: cs => String.mk (c.toUpper :: cs.map Char.toLower)

/-- Python `str.split(' ')`: split on every single space, keeping empty
pieces ("" splits to [""]).  Implemented on the character list so that it
computes by kernel reduction. -/
def splitCharsSpace : List Char → List (List Char)
  | [] => [[]]
  | c :: cs =>
      let r := splitCharsSpace cs
      if c = ' ' then [] :: r
      else
        match r with
        | w :: ws => (c :: w) :: ws
        | [] => [[c]]

/-- Python `s.split(' ')` as a list of strings. -/
def pySplitSpace (s : String) : List String :=
  (splitCharsSpace s.data).map String.mk

/-- `' '.join(word.capitalize() for word in table_name.split(' '))`
(lines 174 and 576 of the source). -/
def normalizeTableName (s : String) : String :=
  String.intercalate " " ((pySplitSpace s).map pyCapitalize)

/-- A query-string parameter value (httpx renders ints and strings). -/
inductive PVal where
  | pint (i : Int)
  | pstr (s : String)

/-- One HTTP request issued through the httpx client: method, path relative to
the client base URL, query parameters, optional JSON body. -/
structure Request where
  method : String
  url : String
  params : List (String × PVal) := []
  body : Option Json := none

/-- A backend HTTP response: status code, raw body text, and the outcome of
`response.json()` (`.error msg` models `json.JSONDecodeError` with message
`msg`, covering empty and otherwise unparsable bodies). -/
structure HttpResponse where
  status : Nat
  text : String
  jsonBody : Except String Json

/-- Outcome of one network round trip: a response, or a transport failure
(httpx `RequestError`) with message `msg`. -/
inductive NetResult where
  | ok (resp : HttpResponse)
  | fail (msg : String)

/-- The exceptions the module raises and catches.  `jsonDecodeError` is kept
distinct from `valueError` although Python's `json.JSONDecodeError` subclasses
`ValueError`: the handlers below treat it exactly as the subclass relation
dictates. -/
inductive PyError where
  | valueError (msg : String)
  | httpStatusError (resp : HttpResponse)
  | jsonDecodeError (msg : String)
  | otherError (msg : String)

/-- The text of `str(httpx.HTTPStatusError)`.  httpx builds it from the status
code, reason phrase and URL; no claim depends on its exact wording, so it is
modelled as a fixed function of the status. -/
def httpStatusErrorStr (r : HttpResponse) : String :=
  "HTTPStatusError: status " ++ toString r.status

/-- Python `str(e)` for each modelled exception. -/
def pyStr : PyError → String
  | .valueError m => m
  | .httpStatusError r => httpStatusErrorStr r
  | .jsonDecodeError m => m
  | .otherError m => m

/-- Modelled message of the `AttributeError`/`TypeError` Python raises when the
code calls `.get` on, or iterates, a JSON value that is not a dict/list; the
exact Python message text is abstracted (no claim depends on it). -/
def attrErrMsg : String := "AttributeError"

/-- httpx `raise_for_status` raises exactly when the status is not 2xx. -/
def is2xx (s : Nat) : Bool := 200 ≤ s && s < 300

/-- Process-wide configuration: the three environment variables.  `none`
models an unset variable; an empty string is set but falsy. -/
structure Env where
  nocodb_url : Option String
  api_token : Option String
  base_id : Option String

/-- The httpx client configuration produced by `get_nocodb_client`. -/
structure Client where
  base_url : String
  headers : List (String × String)
  timeout : Nat

/-- One trailing slash removed, as in
`if nocodb_url.endswith("/"): nocodb_url = nocodb_url[:-1]`.  A one-character
`endswith` test is exactly a test on the last character; implemented on the
character list so that it computes by kernel reduction. -/
def pyStripSlash (s : String) : String :=
  match s.data.getLast? with
  | some c => if c = '/' then String.mk s.data.dropLast else s
  | none => s

/-- `get_nocodb_client` (source lines 48-74): checks `NOCODB_URL` and
`NOCODB_API_TOKEN` (not the base id), strips one trailing slash, and builds a
client with the xc-token and JSON content-type headers and a 30-second
timeout. -/
def get_nocodb_client (env : Env) : Except PyError Client :=
  if !optStrTruthy env.nocodb_url then
    .error (.valueError "NOCODB_URL environment variable is not set")
  else if !optStrTruthy env.api_token then
    .error (.valueError "NOCODB_API_TOKEN environment variable is not set")
  else
    .ok { base_url := pyStripSlash (env.nocodb_url.getD "")
          headers := [("xc-token", env.api_token.getD ""),
                      ("Content-Type", "application/json")]
          timeout := 30 }

/-- The base's table-listing endpoint. -/
def tablesListUrl (base : String) : String :=
  "/api/v2/meta/bases/" ++ base ++ "/tables"

/-- The GET request `get_table_id` issues. -/
def tablesListReq (base : String) : Request :=
  { method := "GET", url := tablesListUrl base }

/-- The linear scan of `get_table_id` (source lines 100-109): first table whose
`title` field equals the name wins and its `id` field (Python `None` when
absent) is returned; a non-dict entry raises before the scan can continue; an
exhausted list raises the not-found `ValueError`. -/
def findTableId : List Json → String → String → Except PyError Json
  | [], name, base =>
      .error (.valueError ("Table '" ++ name ++ "' not found in base '"
        ++ base ++ "'"))
  | t :: rest, name, base =>
      match t with
      | .obj fs =>
          match dictFind fs "title" with
          | some (.str ttl) =>
              if ttl = name then .ok ((dictFind fs "id").getD .null)
              else findTableId rest name base
          | _ => findTableId rest name base
      | _ => .error (.otherError attrErrMsg)

/-- `get_table_id` (source lines 77-109): checks `NOCODB_BASE_ID`, GETs the
listing endpoint, converts a non-2xx listing response to a `ValueError`
carrying only the status (the body is logged, not propagated), reads
`response.json().get("list", [])`, and scans for the first title match.
Returns the resolution outcome together with the requests issued. -/
def get_table_id (env : Env) (net : Request → NetResult) (table_name : String) :
    Except PyError Json × List Request :=
  if !optStrTruthy env.base_id then
    (.error (.valueError "NOCODB_BASE_ID environment variable is not set"), [])
  else
    let base := env.base_id.getD ""
    let req := tablesListReq base
    match net req with
    | .fail m => (.error (.otherError m), [req])
    | .ok resp =>
        if is2xx resp.status then
          match resp.jsonBody with
          | .error m => (.error (.jsonDecodeError m), [req])
          | .ok body =>
              match body with
              | .obj fs =>
                  match (dictFind fs "list").getD (Json.arr []) with
                  | .arr tables => (findTableId tables table_name base, [req])
                  | _ => (.error (.otherError attrErrMsg), [req])
              | _ => (.error (.otherError attrErrMsg), [req])
        else
          (.error (.valueError ("Failed to get tables list: HTTP "
            ++ toString resp.status)), [req])

/-- What one MCP operation invocation produced: the JSON result envelope, the
HTTP requests issued in order, and whether the operation ever created an httpx
client ('client' in locals()) and whether it closed it before returning. -/
structure OpResult where
  result : Json
  requests : List Request
  acquired : Bool
  closed : Bool

/-- Abbreviation for building an `OpResult`. -/
def mkRes (r : Json) (reqs : List Request) (acq closed : Bool) : OpResult :=
  { result := r, requests := reqs, acquired := acq, closed := closed }

/-- `{"error": True, "message": m}`. -/
def errObj (m : String) : Json :=
  .obj [("error", .bool true), ("message", .str m)]

/-- The envelope the record operations build from an `httpx.HTTPStatusError`:
`{"error": True, "status_code": ..., "message": "HTTP error: " + text}`. -/
def httpErrObj (r : HttpResponse) : Json :=
  .obj [("error", .bool true), ("status_code", .num r.status),
        ("message", .str ("HTTP error: " ++ r.text))]

/-- The shared except-chain of `retrieve_records`, `update_records` and
`delete_records`: `httpx.HTTPStatusError` becomes the status-carrying envelope,
every other exception becomes `{"error": True, "message": "Error: " + str(e)}`. -/
def recordOpsHandle (e : PyError) : Json :=
  match e with
  | .httpStatusError r => httpErrObj r
  | e => errObj ("Error: " ++ pyStr e)

/-- The except-chain of `create_records` (source lines 371-396): HTTP status
errors as above; `ValueError` (which `json.JSONDecodeError` subclasses) becomes
an envelope whose message names the operation and table instead of the plain
"Error: " prefix; anything else gets the "Error: " prefix. -/
def createHandle (t : String) (e : PyError) : Json :=
  match e with
  | .httpStatusError r => httpErrObj r
  | .valueError m => errObj ("Error creating records in '" ++ t ++ "': " ++ m)
  | .jsonDecodeError m =>
      errObj ("Error creating records in '" ++ t ++ "': " ++ m)
  | .otherError m => errObj ("Error: " ++ m)

/-- The except-chain of `get_schema` (source lines 718-742), shaped like
`create_records`'s. -/
def schemaHandle (t : String) (e : PyError) : Json :=
  match e with
  | .httpStatusError r => httpErrObj r
  | .valueError m => errObj ("Error retrieving schema for '" ++ t ++ "': " ++ m)
  | .jsonDecodeError m =>
      errObj ("Error retrieving schema for '" ++ t ++ "': " ++ m)
  | .otherError m => errObj ("Error: " ++ m)

/-- The GET request of a single-record retrieval (source lines 194-198). -/
def singleRecordReq (table_id : Json) (row_id : String) : Request :=
  { method := "GET"
    url := "/api/v2/tables/" ++ fstr table_id ++ "/records/" ++ row_id }

/-- `retrieve_records` (source lines 112-261).  The table name is title-cased
before resolution (line 174).  Single-record mode when `row_id` is truthy; the
returned body is passed through verbatim, except that the logging code calls
`result.get(...)` and so raises on a body that is not a dict (truthy non-dict
in single mode, any non-dict in list mode). -/
def retrieve_records (env : Env) (net : Request → NetResult)
    (table_name : String) (row_id : Option String := none)
    (filters : Option String := none) (limit : Option Int := some 10)
    (offset : Option Int := some 0) (sort : Option String := none)
    (fields : Option String := none) : OpResult :=
  if table_name = "" then
    mkRes (errObj "Table name is required") [] false false
  else
    let table_name := normalizeTableName table_name
    match get_nocodb_client env with
    | .error e => mkRes (recordOpsHandle e) [] false false
    | .ok _ =>
        match get_table_id env net table_name with
        | (.error e, reqs) => mkRes (recordOpsHandle e) reqs true true
        | (.ok table_id, reqs) =>
            if optStrTruthy row_id then
              let req := singleRecordReq table_id (row_id.getD "")
              match net req with
              | .fail m =>
                  mkRes (recordOpsHandle (.otherError m)) (reqs ++ [req])
                    true true
              | .ok resp =>
                  if is2xx resp.status then
                    match resp.jsonBody with
                    | .error m =>
                        mkRes (recordOpsHandle (.jsonDecodeError m))
                          (reqs ++ [req]) true true
                    | .ok result =>
                        if result.pyTruthy && !result.isObj then
                          mkRes (recordOpsHandle (.otherError attrErrMsg))
                            (reqs ++ [req]) true true
                        else
                          mkRes result (reqs ++ [req]) true true
                  else
                    mkRes (httpErrObj resp) (reqs ++ [req]) true true
            else
              let params : List (String × PVal) :=
                (match limit with
                 | some l => [("limit", PVal.pint l)]
                 | none => [])
                ++ (match offset with
                    | some o => [("offset", PVal.pint o)]
                    | none => [])
                ++ (if optStrTruthy sort then
                      [("sort", PVal.pstr (sort.getD ""))] else [])
                ++ (if optStrTruthy fields then
                      [("fields", PVal.pstr (fields.getD ""))] else [])
                ++ (if optStrTruthy filters then
                      [("where", PVal.pstr (filters.getD ""))] else [])
              let req : Request :=
                { method := "GET"
                  url := "/api/v2/tables/" ++ fstr table_id ++ "/records"
                  params := params }
              match net req with
              | .fail m =>
                  mkRes (recordOpsHandle (.otherError m)) (reqs ++ [req])
                    true true
              | .ok resp =>
                  if is2xx resp.status then
                    match resp.jsonBody with
                    | .error m =>
                        mkRes (recordOpsHandle (.jsonDecodeError m))
                          (reqs ++ [req]) true true
                    | .ok result =>
                        if result.isObj then
                          mkRes result (reqs ++ [req]) true true
                        else
                          mkRes (recordOpsHandle (.otherError attrErrMsg))
                            (reqs ++ [req]) true true
                  else
                    mkRes (httpErrObj resp) (reqs ++ [req]) true true

/-- The shape coercion of `create_records` (source lines 317-333): bulk mode
wraps a non-list payload in a one-element list; single mode keeps only the
first element of a list payload (`{}` when the list is empty) and rejects an
empty result. -/
def coerceCreateData (bulk : Bool) (data : Json) : Except String Json :=
  if bulk then
    match data with
    | .arr xs =>
        if xs.isEmpty then .error "Data list cannot be empty for bulk creation"
        else .ok (.arr xs)
    | d => .ok (.arr [d])
  else
    match data with
    | .arr xs =>
        let d := match xs with | x :: _ => x | [] => Json.obj []
        if d.pyTruthy then .ok d
        else .error "Data dictionary cannot be empty for single record creation"
    | d => .ok d

/-- The POST request of record creation: the bulk endpoint when `bulk`, the
single-record endpoint otherwise, body = the coerced payload
(source lines 349-360). -/
def createReq (bulk : Bool) (table_id : Json) (payload : Json) : Request :=
  { method := "POST"
    url :=
      if bulk then "/api/v2/tables/" ++ fstr table_id ++ "/records/bulk"
      else "/api/v2/tables/" ++ fstr table_id ++ "/records"
    body := some payload }

/-- `create_records` (source lines 264-399).  No title-casing of the table
name.  POSTs the coerced payload to the bulk or single endpoint and passes the
backend body through verbatim on success. -/
def create_records (env : Env) (net : Request → NetResult)
    (table_name : String) (data : Json) (bulk : Bool := false) : OpResult :=
  if table_name = "" then
    mkRes (errObj "Table name is required") [] false false
  else if !data.pyTruthy then
    mkRes (errObj "Data is required for record creation") [] false false
  else
    match coerceCreateData bulk data with
    | .error m => mkRes (errObj m) [] false false
    | .ok payload =>
        match get_nocodb_client env with
        | .error e => mkRes (createHandle table_name e) [] false false
        | .ok _ =>
            match get_table_id env net table_name with
            | (.error e, reqs) =>
                mkRes (createHandle table_name e) reqs true true
            | (.ok table_id, reqs) =>
                let req := createReq bulk table_id payload
                match net req with
                | .fail m =>
                    mkRes (createHandle table_name (.otherError m))
                      (reqs ++ [req]) true true
                | .ok resp =>
                    if is2xx resp.status then
                      match resp.jsonBody with
                      | .error m =>
                          mkRes (createHandle table_name (.jsonDecodeError m))
                            (reqs ++ [req]) true true
                      | .ok result => mkRes result (reqs ++ [req]) true true
                    else
                      mkRes (httpErrObj resp) (reqs ++ [req]) true true

/-- The PATCH request of a bulk update: body exactly
`{"ids": bulk_ids, "data": data}` (source lines 482-486). -/
def bulkPatchReq (table_id : Json) (ids : List String) (data : Json) :
    Request :=
  { method := "PATCH"
    url := "/api/v2/tables/" ++ fstr table_id ++ "/records/bulk"
    body := some (.obj [("ids", .arr (ids.map Json.str)), ("data", data)]) }

/-- The PATCH request of a single-record update: body exactly `data`
(source lines 488-491). -/
def singlePatchReq (table_id : Json) (row_id : String) (data : Json) :
    Request :=
  { method := "PATCH"
    url := "/api/v2/tables/" ++ fstr table_id ++ "/records/" ++ row_id
    body := some data }

/-- `update_records` (source lines 402-527).  No title-casing of the table
name.  Validation: data required; bulk mode requires truthy `bulk_ids`,
non-bulk mode requires truthy `row_id`.  On success the backend body is passed
through verbatim. -/
def update_records (env : Env) (net : Request → NetResult)
    (table_name : String) (row_id : Option String := none)
    (data : Option Json := none) (bulk : Bool := false)
    (bulk_ids : Option (List String) := none) : OpResult :=
  if table_name = "" then
    mkRes (errObj "Table name is required") [] false false
  else if !optJsonTruthy data then
    mkRes (errObj "Data parameter is required for updates") [] false false
  else if bulk && !optIdsTruthy bulk_ids then
    mkRes (errObj "Bulk IDs are required for bulk updates") [] false false
  else if !bulk && !optStrTruthy row_id then
    mkRes (errObj "Row ID is required for single record update") [] false false
  else
    match get_nocodb_client env with
    | .error e => mkRes (recordOpsHandle e) [] false false
    | .ok _ =>
        match get_table_id env net table_name with
        | (.error e, reqs) => mkRes (recordOpsHandle e) reqs true true
        | (.ok table_id, reqs) =>
            let d := data.getD Json.null
            let finish (req : Request) : OpResult :=
              match net req with
              | .fail m =>
                  mkRes (recordOpsHandle (.otherError m)) (reqs ++ [req])
                    true true
              | .ok resp =>
                  if is2xx resp.status then
                    match resp.jsonBody with
                    | .error m =>
                        mkRes (recordOpsHandle (.jsonDecodeError m))
                          (reqs ++ [req]) true true
                    | .ok result => mkRes result (reqs ++ [req]) true true
                  else
                    mkRes (httpErrObj resp) (reqs ++ [req]) true true
            if bulk && optIdsTruthy bulk_ids then
              finish (bulkPatchReq table_id (bulk_ids.getD []) d)
            else if optStrTruthy row_id then
              finish (singlePatchReq table_id (row_id.getD "") d)
            else
              mkRes (errObj ("Either row_id (for single update) or bulk=True "
                ++ "with bulk_ids (for bulk update) must be provided"))
                reqs true true

/-- The 2xx response normalization of `delete_records` (source lines 624-638):
204 gives the plain success message; otherwise a numeric JSON body is counted
into the message (`isinstance(result, (int, float))`, which in Python also
admits booleans), a dict passes through verbatim, any other JSON value is
wrapped under `response_data`, and an unparsable body gives the success
message with " (non-JSON response)" appended. -/
def normalizeDeleteResponse (resp : HttpResponse) : Json :=
  if resp.status = 204 then
    .obj [("success", .bool true),
          ("message", .str "Record(s) deleted successfully")]
  else
    match resp.jsonBody with
    | .error _ =>
        .obj [("success", .bool true),
              ("message", .str "Record(s) deleted successfully (non-JSON response)")]
    | .ok r =>
        match r with
        | .num n =>
            .obj [("success", .bool true),
                  ("message", .str (toString n
                    ++ " record(s) deleted successfully"))]
        | .bool b =>
            .obj [("success", .bool true),
                  ("message", .str (fstr (.bool b)
                    ++ " record(s) deleted successfully"))]
        | .obj fs => .obj fs
        | other =>
            .obj [("success", .bool true),
                  ("message", .str "Record(s) deleted successfully"),
                  ("response_data", other)]

/-- The bulk DELETE request: JSON body `{"ids": bulk_ids}`
(source line 607). -/
def bulkDeleteReq (table_id : Json) (ids : List String) : Request :=
  { method := "DELETE"
    url := "/api/v2/tables/" ++ fstr table_id ++ "/records/bulk"
    body := some (.obj [("ids", .arr (ids.map Json.str))]) }

/-- The single-record DELETE request, no body (source lines 610-612). -/
def singleDeleteReq (table_id : Json) (row_id : String) : Request :=
  { method := "DELETE"
    url := "/api/v2/tables/" ++ fstr table_id ++ "/records/" ++ row_id }

/-- `delete_records` (source lines 530-663).  The table name is title-cased
before resolution (line 576); addressing-mode validation mirrors
`update_records`; a 2xx response is normalized by
`normalizeDeleteResponse`. -/
def delete_records (env : Env) (net : Request → NetResult)
    (table_name : String) (row_id : Option String := none)
    (bulk : Bool := false) (bulk_ids : Option (List String) := none) :
    OpResult :=
  if table_name = "" then
    mkRes (errObj "Table name is required") [] false false
  else
    let table_name := normalizeTableName table_name
    if bulk && !optIdsTruthy bulk_ids then
      mkRes (errObj "Bulk IDs are required for bulk deletion") [] false false
    else if !bulk && !optStrTruthy row_id then
      mkRes (errObj "Row ID is required for single record deletion")
        [] false false
    else
      match get_nocodb_client env with
      | .error e => mkRes (recordOpsHandle e) [] false false
      | .ok _ =>
          match get_table_id env net table_name with
          | (.error e, reqs) => mkRes (recordOpsHandle e) reqs true true
          | (.ok table_id, reqs) =>
              let finish (req : Request) : OpResult :=
                match net req with
                | .fail m =>
                    mkRes (recordOpsHandle (.otherError m)) (reqs ++ [req])
                      true true
                | .ok resp =>
                    if is2xx resp.status then
                      mkRes (normalizeDeleteResponse resp) (reqs ++ [req])
                        true true
                    else
                      mkRes (httpErrObj resp) (reqs ++ [req]) true true
              if bulk && optIdsTruthy bulk_ids then
                finish (bulkDeleteReq table_id (bulk_ids.getD []))
              else if optStrTruthy row_id then
                finish (singleDeleteReq table_id (row_id.getD ""))
              else
                mkRes (errObj ("Either row_id (for single deletion) or "
                  ++ "bulk=True with bulk_ids (for bulk deletion) must be "
                  ++ "provided")) reqs true true

/-- The GET request of `get_schema`: the metadata-by-id endpoint
(source lines 703-706). -/
def schemaReq (table_id : Json) : Request :=
  { method := "GET", url := "/api/v2/meta/tables/" ++ fstr table_id }

/-- `get_schema` (source lines 666-745).  No title-casing.  GETs the
metadata-by-id endpoint; the logging code reads `result.get("columns", [])`,
so a non-dict 2xx body raises and lands in the generic handler. -/
def get_schema (env : Env) (net : Request → NetResult) (table_name : String) :
    OpResult :=
  if table_name = "" then
    mkRes (errObj "Table name is required") [] false false
  else
    match get_nocodb_client env with
    | .error e => mkRes (schemaHandle table_name e) [] false false
    | .ok _ =>
        match get_table_id env net table_name with
        | (.error e, reqs) => mkRes (schemaHandle table_name e) reqs true true
        | (.ok table_id, reqs) =>
            let req := schemaReq table_id
            match net req with
            | .fail m =>
                mkRes (schemaHandle table_name (.otherError m)) (reqs ++ [req])
                  true true
            | .ok resp =>
                if is2xx resp.status then
                  match resp.jsonBody with
                  | .error m =>
                      mkRes (schemaHandle table_name (.jsonDecodeError m))
                        (reqs ++ [req]) true true
                  | .ok result =>
                      if result.isObj then
                        mkRes result (reqs ++ [req]) true true
                      else
                        mkRes (schemaHandle table_name (.otherError attrErrMsg))
                          (reqs ++ [req]) true true
                else
                  mkRes (httpErrObj resp) (reqs ++ [req]) true true

/-- The error envelope of `update_field` (source lines 813-816): every
exception, HTTP status errors included, becomes
`{"error": True, "message": "Failed to update field '...' in base '...': "
+ str(e)}` — no `status_code` field, no "HTTP error: " prefix. -/
def updateFieldHandle (base fid : String) (e : PyError) : Json :=
  errObj ("Failed to update field '" ++ fid ++ "' in base '" ++ base
    ++ "': " ++ pyStr e)

/-- The PATCH request of `update_field`: the v3 base-scoped field-metadata
endpoint, body = `field_data` (source lines 801-804). -/
def updateFieldReq (base field_id : String) (field_data : Json) : Request :=
  { method := "PATCH"
    url := "/api/v3/meta/bases/" ++ base ++ "/fields/" ++ field_id
    body := some field_data }

/-- `update_field` (source lines 748-816).  No table resolution; PATCHes the
v3 field-metadata endpoint.  There is no `finally` clause: the client is never
closed, on any path. -/
def update_field (env : Env) (net : Request → NetResult) (field_id : String)
    (field_data : Json) : OpResult :=
  if !optStrTruthy env.base_id || field_id = "" then
    mkRes (errObj "Both base_id and field_id are required") [] false false
  else if !field_data.isObj || !field_data.pyTruthy then
    mkRes (errObj "field_data must be a non-empty dictionary") [] false false
  else
    let base := env.base_id.getD ""
    match get_nocodb_client env with
    | .error e => mkRes (updateFieldHandle base field_id e) [] false false
    | .ok _ =>
        let req := updateFieldReq base field_id field_data
        match net req with
        | .fail m =>
            mkRes (updateFieldHandle base field_id (.otherError m)) [req]
              true false
        | .ok resp =>
            if is2xx resp.status then
              match resp.jsonBody with
              | .error m =>
                  mkRes (updateFieldHandle base field_id (.jsonDecodeError m))
                    [req] true false
              | .ok result => mkRes result [req] true false
            else
              mkRes (updateFieldHandle base field_id (.httpStatusError resp))
                [req] true false

/-- The error envelope of `list_tables` (source lines 874-877), shaped like
`update_field`'s: no `status_code`, no "HTTP error: " prefix. -/
def listTablesHandle (base : String) (e : PyError) : Json :=
  errObj ("Failed to list tables in base '" ++ base ++ "': " ++ pyStr e)

/-- The GET request of `list_tables`: the listing endpoint with pagination
parameters, the lower-cased string boolean for `includeM2M`, and `sort` only
when truthy (source lines 851-862). -/
def listTablesReq (base : String) (page page_size : Int) (sort : Option String)
    (include_m2m : Bool) : Request :=
  { method := "GET"
    url := tablesListUrl base
    params :=
      [("page", PVal.pint page), ("pageSize", PVal.pint page_size),
       ("includeM2M", PVal.pstr (if include_m2m then "true" else "false"))]
      ++ (if optStrTruthy sort then [("sort", PVal.pstr (sort.getD ""))]
          else []) }

/-- `list_tables` (source lines 819-877).  Does not check the base id (an
unset `NOCODB_BASE_ID` is interpolated as "None" into the URL).  The logging
code reads `result.get("list", [])`, so a non-dict 2xx body raises and lands
in the generic handler.  No `finally` clause: the client is never closed. -/
def list_tables (env : Env) (net : Request → NetResult) (page : Int := 1)
    (page_size : Int := 25) (sort : Option String := none)
    (include_m2m : Bool := false) : OpResult :=
  let base := match env.base_id with | some s => s | none => "None"
  match get_nocodb_client env with
  | .error e => mkRes (listTablesHandle base e) [] false false
  | .ok _ =>
      let req := listTablesReq base page page_size sort include_m2m
      match net req with
      | .fail m =>
          mkRes (listTablesHandle base (.otherError m)) [req] true false
      | .ok resp =>
          if is2xx resp.status then
            match resp.jsonBody with
            | .error m =>
                mkRes (listTablesHandle base (.jsonDecodeError m)) [req]
                  true false
            | .ok result =>
                if result.isObj then
                  mkRes result [req] true false
                else
                  mkRes (listTablesHandle base (.otherError attrErrMsg)) [req]
                    true false
          else
            mkRes (listTablesHandle base (.httpStatusError resp)) [req]
              true false

/-- All three configuration variables present and non-empty. -/
def envConfigured (env : Env) : Bool :=
  optStrTruthy env.nocodb_url && optStrTruthy env.api_token
    && optStrTruthy env.base_id

/-! ### Concrete fixtures used by witnesses and counterexamples -/

/-- A fully configured environment. -/
def envC : Env :=
  { nocodb_url := some "http://x", api_token := some "tok"
    base_id := some "b1" }

/-- A backend listing entry `{"title": ..., "id": ...}`. -/
def tableEntry (title id : String) : Json :=
  .obj [("title", .str title), ("id", .str id)]

/-- A 2xx listing response with the given tables. -/
def listingResp (tables : List Json) : HttpResponse :=
  { status := 200, text := "", jsonBody := .ok (.obj [("list", .arr tables)]) }

/-- A 2xx response with body `{"ok": true}`. -/
def okBodyResp : HttpResponse :=
  { status := 200, text := "{}", jsonBody := .ok (.obj [("ok", .bool true)]) }

/-- A backend that answers the `b1` listing endpoint with `tablesR` and every
other request with `mainR`. -/
def netSplit (tablesR mainR : NetResult) : Request → NetResult :=
  fun req => if req.url == tablesListUrl "b1" then tablesR else mainR

/-- A backend whose base `b1` contains exactly one table, titled "my table". -/
def net9 : Request → NetResult :=
  netSplit (.ok (listingResp [tableEntry "my table" "tbl1"])) (.ok okBodyResp)

/-- A backend whose base `b1` contains exactly one table, titled "T", and
whose every other endpoint answers `{"ok": true}`. -/
def netT : Request → NetResult :=
  netSplit (.ok (listingResp [tableEntry "T" "tblA"])) (.ok okBodyResp)

/-- A 404 with a body, for backend-error scenarios. -/
def resp404 : HttpResponse :=
  { status := 404, text := "Record was not found", jsonBody := .ok .null }

/-- A backend that answers every request with `resp404`. -/
def net404 : Request → NetResult := fun _ => .ok resp404

/-- A backend whose base `b1` contains table "T" but whose record endpoints
answer 404. -/
def netT404 : Request → NetResult :=
  netSplit (.ok (listingResp [tableEntry "T" "tblA"])) (.ok resp404)

/-- A backend that answers every request with a 2xx `{"ok": true}`. -/
def netOk : Request → NetResult := fun _ => .ok okBodyResp

/-- A failing listing response whose body would reveal the backend's message. -/
def resp500secret : HttpResponse :=
  { status := 500, text := "secret-body"
    jsonBody := .error "Expecting value: line 1 column 1 (char 0)" }

/-- A 2xx response with an empty, hence non-JSON-parsable, body. -/
def respEmpty200 : HttpResponse :=
  { status := 200, text := ""
    jsonBody := .error "Expecting value: line 1 column 1 (char 0)" }

/-- A backend whose base `b1` contains table "T" and whose record endpoints
answer 200 with an empty body. -/
def netTEmpty : Request → NetResult :=
  netSplit (.ok (listingResp [tableEntry "T" "tblA"])) (.ok respEmpty200)

/-- A 204 No Content response. -/
def resp204 : HttpResponse :=
  { status := 204, text := ""
    jsonBody := .error "Expecting value: line 1 column 1 (char 0)" }

/-- A 200 response whose JSON body is the bare number 3. -/
def respNum3 : HttpResponse :=
  { status := 200, text := "3", jsonBody := .ok (.num 3) }

/-- The boolean the claim about update/delete validation proposes as
equivalent to validation failure: "neither row_id nor (bulk=true with
non-empty bulk_ids) is satisfied". -/
def claimC6Unmet (bulk : Bool) (row_id : Option String)
    (bulk_ids : Option (List String)) : Bool :=
  !(optStrTruthy row_id || (bulk && optIdsTruthy bulk_ids))

/-! ### Shared lemmas -/

/-- With the base id configured, every `get_table_id` call issues exactly the
one fresh listing GET, whatever the outcome: resolution is never memoized. -/
theorem get_table_id_requests (env : Env) (net : Request → NetResult)
    (name : String) (hb : optStrTruthy env.base_id = true) :
    (get_table_id env net name).2 = [tablesListReq (env.base_id.getD "")] := by
  unfold get_table_id
  rw [hb]
  simp only [Bool.not_true, Bool.false_eq_true, if_false]
  split
  · rfl
  · split
    · split
      · rfl
      · split
        · split
          · rfl
          · rfl
        · rfl
    · rfl

/-! ### C9 -/

/-- C9: `retrieve_records` and `delete_records` title-case the table name
(first letter of every space-separated word capitalized) before resolution,
while `create_records`, `update_records` and `get_schema` pass it unchanged;
on a base whose only table is titled "my table", creation, update and schema
retrieval resolve the table and reach the backend, while retrieval and
deletion look up "My Table" and fail with a not-found error. -/
theorem C9_title_casing_inconsistency :
    normalizeTableName "my table" = "My Table"
    ∧ "my table" ≠ "My Table"
    ∧ (retrieve_records envC net9 "my table" (some "7")).result
        = errObj "Error: Table 'My Table' not found in base 'b1'"
    ∧ (delete_records envC net9 "my table" (some "7")).result
        = errObj "Error: Table 'My Table' not found in base 'b1'"
    ∧ (create_records envC net9 "my table" (.obj [("a", .num 1)]) false).result
        = .obj [("ok", .bool true)]
    ∧ (update_records envC net9 "my table" (some "7")
        (some (.obj [("a", .num 1)])) false none).result
        = .obj [("ok", .bool true)]
    ∧ (get_schema envC net9 "my table").result = .obj [("ok", .bool true)] :=
  ⟨rfl, by decide, rfl, rfl, rfl, rfl, rfl⟩

/-! ### C8 -/

/-- C8 counterexample: with the backend URL and API token set but the base
identifier missing, `get_nocodb_client` succeeds (it checks only the URL and
the token), refuting the claim that client acquisition fails whenever the
base identifier is missing. -/
theorem C8_counterexample :
    get_nocodb_client
        { nocodb_url := some "http://x/", api_token := some "tok"
          base_id := none }
      = .ok { base_url := "http://x"
              headers := [("xc-token", "tok"),
                          ("Content-Type", "application/json")]
              timeout := 30 } := rfl

/-- C8 amended: client acquisition fails with a configuration error exactly
when the backend URL or the API token is missing (the base identifier is not
checked at acquisition: acquisition ignores it entirely, and its absence
surfaces at table resolution instead, before any backend call); on success the
client has the trailing-slash-stripped base URL, the xc-token plus JSON
content-type headers, and the 30-second timeout. -/
theorem C8_amended :
    (∀ env : Env, optStrTruthy env.nocodb_url = false →
      get_nocodb_client env
        = .error (.valueError "NOCODB_URL environment variable is not set"))
    ∧ (∀ env : Env, optStrTruthy env.nocodb_url = true →
        optStrTruthy env.api_token = false →
        get_nocodb_client env
          = .error
              (.valueError "NOCODB_API_TOKEN environment variable is not set"))
    ∧ (∀ env : Env, optStrTruthy env.nocodb_url = true →
        optStrTruthy env.api_token = true →
        get_nocodb_client env
          = .ok { base_url := pyStripSlash (env.nocodb_url.getD "")
                  headers := [("xc-token", env.api_token.getD ""),
                              ("Content-Type", "application/json")]
                  timeout := 30 })
    ∧ (∀ (env : Env) (b b' : Option String),
        get_nocodb_client { env with base_id := b }
          = get_nocodb_client { env with base_id := b' })
    ∧ (∀ (env : Env) (net : Request → NetResult) (name : String),
        optStrTruthy env.base_id = false →
        get_table_id env net name
          = (.error
              (.valueError "NOCODB_BASE_ID environment variable is not set"),
             [])) := by
  refine ⟨?_, ?_, ?_, ?_, ?_⟩
  · intro env hu; simp [get_nocodb_client, hu]
  · intro env hu ht; simp [get_nocodb_client, hu, ht]
  · intro env hu ht; simp [get_nocodb_client, hu, ht]
  · intro env b b'; rfl
  · intro env net name hb; simp [get_table_id, hb]

/-- C8 witness: the amended theorem applied at a configuration missing the
URL, and at one missing only the base identifier. -/
theorem C8_witness :
    get_nocodb_client
        { nocodb_url := none, api_token := some "tok", base_id := some "b1" }
      = .error (.valueError "NOCODB_URL environment variable is not set")
    ∧ get_table_id
        { nocodb_url := some "http://x", api_token := some "tok"
          base_id := none }
        net404 "T"
      = (.error
          (.valueError "NOCODB_BASE_ID environment variable is not set"),
         []) :=
  ⟨C8_amended.1 _ rfl, C8_amended.2.2.2.2 _ _ _ rfl⟩

/-! ### C10 -/

/-- C10: empty `data` (an empty mapping or an empty sequence, either bulk
flag) makes `create_records` return the generic
"Data is required for record creation" envelope with no network request; and
the bulk-specific "Data list cannot be empty for bulk creation" branch of the
shape coercion is unreachable, because the coercion only runs on data that
already passed the generic truthiness check. -/
theorem C10_empty_data_validation :
    (∀ (env : Env) (net : Request → NetResult) (t : String) (b : Bool),
      t ≠ "" →
      create_records env net t (.obj []) b
          = mkRes (errObj "Data is required for record creation") [] false false
        ∧ create_records env net t (.arr []) b
          = mkRes (errObj "Data is required for record creation") [] false false)
    ∧ (∀ (b : Bool) (d : Json), d.pyTruthy = true →
        coerceCreateData b d
          ≠ .error "Data list cannot be empty for bulk creation") := by
  constructor
  · intro env net t b ht
    constructor <;> simp [create_records, Json.pyTruthy, ht]
  · intro b d hd
    cases b
    · cases d <;> simp [coerceCreateData]
      split
      · simp
      · simp only [ne_eq, Except.error.injEq]
        decide
    · cases d <;> simp [coerceCreateData]
      case arr xs =>
        have hx : xs.isEmpty = false := by
          simpa [Json.pyTruthy] using hd
        simpa using hx

/-- C10 witness: the theorem applied at a concrete empty mapping and at a
concrete non-empty payload. -/
theorem C10_witness :
    create_records envC netT "T" (.obj []) true
        = mkRes (errObj "Data is required for record creation") [] false false
    ∧ coerceCreateData true (.obj [("a", .num 1)])
        ≠ .error "Data list cannot be empty for bulk creation" :=
  ⟨(C10_empty_data_validation.1 envC netT "T" true (by decide)).1,
   C10_empty_data_validation.2 true _ rfl⟩

/-! ### C5 -/

/-- C5: the shape coercion of `create_records` on non-empty name and data —
(a) bulk mode with a single mapping behaves identically to the one-element
sequence containing it (same backend payload, same everything);
(b) single mode with a sequence uses only the first element, discarding the
rest; (c) when the coerced payload is empty, a validation envelope is returned
and no request is issued. -/
theorem C5_shape_coercion :
    (∀ (env : Env) (net : Request → NetResult) (t : String) (d : Json),
      d.isArr = false → d.pyTruthy = true →
      create_records env net t d true = create_records env net t (.arr [d]) true)
    ∧ (∀ (env : Env) (net : Request → NetResult) (t : String) (x : Json)
        (rest : List Json),
      create_records env net t (.arr (x :: rest)) false
        = create_records env net t (.arr [x]) false)
    ∧ (∀ (env : Env) (net : Request → NetResult) (t : String) (x : Json)
        (rest : List Json), t ≠ "" → x.pyTruthy = false →
      create_records env net t (.arr (x :: rest)) false
        = mkRes
            (errObj "Data dictionary cannot be empty for single record creation")
            [] false false) := by
  refine ⟨?_, ?_, ?_⟩
  · intro env net t d hA hT
    cases d <;> simp_all [create_records, coerceCreateData, Json.pyTruthy,
      Json.isArr]
  · intro env net t x rest
    simp [create_records, coerceCreateData, Json.pyTruthy]
  · intro env net t x rest ht hx
    have hT : (Json.arr (x :: rest)).pyTruthy = true := by simp [Json.pyTruthy]
    simp [create_records, coerceCreateData, hT, hx, ht]

/-- C5 witness: the theorem applied with concrete payloads against the
fixture backend. -/
theorem C5_witness :
    create_records envC netT "T" (.obj [("a", .num 1)]) true
        = create_records envC netT "T" (.arr [.obj [("a", .num 1)]]) true
    ∧ create_records envC netT "T"
          (.arr [.obj [("a", .num 1)], .obj [("b", .num 2)]]) false
        = create_records envC netT "T" (.arr [.obj [("a", .num 1)]]) false
    ∧ create_records envC netT "T" (.arr [.obj [], .obj [("b", .num 2)]]) false
        = mkRes
            (errObj "Data dictionary cannot be empty for single record creation")
            [] false false :=
  ⟨C5_shape_coercion.1 envC netT "T" _ rfl rfl,
   C5_shape_coercion.2.1 envC netT "T" _ _,
   C5_shape_coercion.2.2 envC netT "T" _ _ (by decide) rfl⟩

/-! ### C3 -/

/-- C3 counterexample: a failing listing call (HTTP 500, body "secret-body")
makes `get_table_id` fail with an error that carries the status but not the
backend response body, refuting the claim that the error propagates the
backend HTTP status *and body*. -/
theorem C3_counterexample :
    (get_table_id envC (netSplit (.ok resp500secret) (.fail "unused")) "T").1
      = .error (.valueError "Failed to get tables list: HTTP 500")
    ∧ resp500secret.text = "secret-body"
    ∧ ¬ ("secret-body".data <:+: "Failed to get tables list: HTTP 500".data) :=
  ⟨rfl, rfl, by decide⟩

/-- C3 amended: resolution returns the identifier of the first listing entry
whose title exactly equals the requested name; a name with no exact match
fails with the not-found error; a non-2xx listing response fails with an error
propagating the backend HTTP status only (the body is logged, not included in
the propagated error); and resolution issues a fresh listing GET on every call
with no memoization. -/
theorem C3_resolution :
    (∀ (env : Env) (net : Request → NetResult) (name : String)
        (resp : HttpResponse),
      optStrTruthy env.base_id = true →
      net (tablesListReq (env.base_id.getD "")) = .ok resp →
      is2xx resp.status = false →
      get_table_id env net name
        = (.error (.valueError ("Failed to get tables list: HTTP "
            ++ toString resp.status)),
           [tablesListReq (env.base_id.getD "")]))
    ∧ (∀ (env : Env) (net : Request → NetResult) (name : String)
        (resp : HttpResponse) (fs : List (String × Json)) (tables : List Json),
      optStrTruthy env.base_id = true →
      net (tablesListReq (env.base_id.getD "")) = .ok resp →
      is2xx resp.status = true →
      resp.jsonBody = .ok (.obj fs) →
      dictFind fs "list" = some (.arr tables) →
      get_table_id env net name
        = (findTableId tables name (env.base_id.getD ""),
           [tablesListReq (env.base_id.getD "")]))
    ∧ (∀ (fs : List (String × Json)) (rest : List Json) (name base : String)
        (i : Json),
      dictFind fs "title" = some (.str name) →
      dictFind fs "id" = some i →
      findTableId (.obj fs :: rest) name base = .ok i)
    ∧ (∀ (fs : List (String × Json)) (rest : List Json) (name base : String),
      dictFind fs "title" ≠ some (.str name) →
      findTableId (.obj fs :: rest) name base = findTableId rest name base)
    ∧ (∀ name base : String,
      findTableId [] name base
        = .error (.valueError ("Table '" ++ name ++ "' not found in base '"
            ++ base ++ "'")))
    ∧ (∀ (env : Env) (net : Request → NetResult) (name : String),
      optStrTruthy env.base_id = true →
      (get_table_id env net name).2
        = [tablesListReq (env.base_id.getD "")]) := by
  refine ⟨?_, ?_, ?_, ?_, ?_, ?_⟩
  · intro env net name resp hb hnet h2
    unfold get_table_id
    rw [hb]
    simp [hnet, h2]
  · intro env net name resp fs tables hb hnet h2 hj hl
    unfold get_table_id
    rw [hb]
    simp [hnet, h2, hj, hl]
  · intro fs rest name base i httl hid
    simp [findTableId, httl, hid]
  · intro fs rest name base h
    rcases hf : dictFind fs "title" with _ | v
    · simp [findTableId, hf]
    · rcases v with _ | b | n | s | xs | gs
      · simp [findTableId, hf]
      · simp [findTableId, hf]
      · simp [findTableId, hf]
      · rw [hf] at h
        have hsn : s ≠ name := fun he => h (by rw [he])
        simp [findTableId, hf, hsn]
      · simp [findTableId, hf]
      · simp [findTableId, hf]
  · intro name base
    rfl
  · intro env net name hb
    exact get_table_id_requests env net name hb

/-- C3 witness: the amended theorem applied to a one-table listing (first
match returned), to an absent name (not-found), and to a failing listing call
(status-only error). -/
theorem C3_witness :
    findTableId [tableEntry "T" "tblA"] "T" "b1" = .ok (.str "tblA")
    ∧ findTableId [] "missing" "b1"
        = .error (.valueError "Table 'missing' not found in base 'b1'")
    ∧ get_table_id envC (netSplit (.ok resp500secret) (.fail "unused")) "X"
        = (.error (.valueError "Failed to get tables list: HTTP 500"),
           [tablesListReq "b1"]) :=
  ⟨C3_resolution.2.2.1 _ [] "T" "b1" _ rfl rfl,
   C3_resolution.2.2.2.2.1 "missing" "b1",
   C3_resolution.1 envC _ "X" resp500secret rfl rfl rfl⟩

/-! ### C4 -/

/-- C4 counterexample: a 2xx delete response with status 200 and an *empty
body* is normalized to the message
"Record(s) deleted successfully (non-JSON response)", not to the claimed
`{success: true, message: "Record(s) deleted successfully"}`. -/
theorem C4_counterexample :
    (delete_records envC netTEmpty "T" (some "1")).result.field "message"
      = some (.str "Record(s) deleted successfully (non-JSON response)")
    ∧ respEmpty200.status = 200
    ∧ respEmpty200.text = ""
    ∧ "Record(s) deleted successfully (non-JSON response)"
        ≠ "Record(s) deleted successfully" :=
  ⟨rfl, rfl, rfl, by decide⟩

/-- C4 amended: every `delete_records` call that reaches the backend and gets
a 2xx response returns `normalizeDeleteResponse` of that response, where: a
204 status maps to `{success: true, message: "Record(s) deleted
successfully"}`; a numeric JSON body `n` maps to `{success: true, message:
"<n> record(s) deleted successfully"}`; a non-mapping, non-numeric JSON body
is wrapped under `response_data`; a mapping body is returned verbatim; and an
empty or otherwise non-JSON-parsable body maps to `{success: true, message:
"Record(s) deleted successfully (non-JSON response)"}` without raising any
exception. -/
theorem C4_delete_normalization :
    (∀ (env : Env) (net : Request → NetResult) (t rid : String) (c : Client)
        (tid : Json) (reqs0 : List Request) (resp : HttpResponse),
      t ≠ "" → rid ≠ "" →
      get_nocodb_client env = .ok c →
      get_table_id env net (normalizeTableName t) = (.ok tid, reqs0) →
      net (singleDeleteReq tid rid) = .ok resp →
      is2xx resp.status = true →
      delete_records env net t (some rid) false none
        = mkRes (normalizeDeleteResponse resp)
            (reqs0 ++ [singleDeleteReq tid rid]) true true)
    ∧ (∀ (env : Env) (net : Request → NetResult) (t : String)
        (rid : Option String) (ids : List String) (c : Client) (tid : Json)
        (reqs0 : List Request) (resp : HttpResponse),
      t ≠ "" → ids ≠ [] →
      get_nocodb_client env = .ok c →
      get_table_id env net (normalizeTableName t) = (.ok tid, reqs0) →
      net (bulkDeleteReq tid ids) = .ok resp →
      is2xx resp.status = true →
      delete_records env net t rid true (some ids)
        = mkRes (normalizeDeleteResponse resp)
            (reqs0 ++ [bulkDeleteReq tid ids]) true true)
    ∧ (∀ resp : HttpResponse, resp.status = 204 →
      normalizeDeleteResponse resp
        = .obj [("success", .bool true),
                ("message", .str "Record(s) deleted successfully")])
    ∧ (∀ (resp : HttpResponse) (n : Int), resp.status ≠ 204 →
      resp.jsonBody = .ok (.num n) →
      normalizeDeleteResponse resp
        = .obj [("success", .bool true),
                ("message", .str (toString n
                  ++ " record(s) deleted successfully"))])
    ∧ (∀ (resp : HttpResponse) (m : String), resp.status ≠ 204 →
      resp.jsonBody = .error m →
      normalizeDeleteResponse resp
        = .obj [("success", .bool true),
                ("message",
                 .str "Record(s) deleted successfully (non-JSON response)")])
    ∧ (∀ (resp : HttpResponse) (xs : List Json), resp.status ≠ 204 →
      resp.jsonBody = .ok (.arr xs) →
      normalizeDeleteResponse resp
        = .obj [("success", .bool true),
                ("message", .str "Record(s) deleted successfully"),
                ("response_data", .arr xs)])
    ∧ (∀ (resp : HttpResponse) (fs : List (String × Json)),
      resp.status ≠ 204 →
      resp.jsonBody = .ok (.obj fs) →
      normalizeDeleteResponse resp = .obj fs) := by
  refine ⟨?_, ?_, ?_, ?_, ?_, ?_, ?_⟩
  · intro env net t rid c tid reqs0 resp ht hrid hcl hres hnet h2
    have hRid : optStrTruthy (some rid) = true := by
      simpa [optStrTruthy] using hrid
    simp [delete_records, ht, hRid, hcl, hres, hnet, h2, optIdsTruthy]
  · intro env net t rid ids c tid reqs0 resp ht hids hcl hres hnet h2
    have hIds : optIdsTruthy (some ids) = true := by
      simpa [optIdsTruthy] using hids
    simp [delete_records, ht, hIds, hcl, hres, hnet, h2]
  · intro resp h204
    simp [normalizeDeleteResponse, h204]
  · intro resp n h204 hj
    simp [normalizeDeleteResponse, h204, hj]
  · intro resp m h204 hj
    simp [normalizeDeleteResponse, h204, hj]
  · intro resp xs h204 hj
    simp [normalizeDeleteResponse, h204, hj]
  · intro resp fs h204 hj
    simp [normalizeDeleteResponse, h204, hj]

/-- C4 witness: the amended theorem applied to the empty-body fixture, to a
204 response, and to a numeric body 3. -/
theorem C4_witness :
    delete_records envC netTEmpty "T" (some "1")
      = mkRes (normalizeDeleteResponse respEmpty200)
          ([tablesListReq "b1"] ++ [singleDeleteReq (.str "tblA") "1"])
          true true
    ∧ normalizeDeleteResponse resp204
      = .obj [("success", .bool true),
              ("message", .str "Record(s) deleted successfully")]
    ∧ normalizeDeleteResponse respNum3
      = .obj [("success", .bool true),
              ("message", .str "3 record(s) deleted successfully")] :=
  ⟨C4_delete_normalization.1 envC netTEmpty "T" "1" _ (.str "tblA") _
      respEmpty200 (by decide) (by decide) rfl rfl rfl rfl,
   C4_delete_normalization.2.2.1 resp204 rfl,
   C4_delete_normalization.2.2.2.1 respNum3 3 (by decide) rfl⟩

/-! ### C6 -/

/-- C6 counterexample: `update_records` with `bulk=true`, no `bulk_ids` and a
*present* `row_id` fails validation with no network call, although the
claim's "equivalently" formulation (failure iff neither `row_id` nor
`bulk=true`-with-non-empty-`bulk_ids` is satisfied) says it should not fail:
`row_id` is satisfied there. -/
theorem C6_counterexample :
    update_records envC netT "T" (some "123") (some (.obj [("a", .num 1)]))
        true none
      = mkRes (errObj "Bulk IDs are required for bulk updates") [] false false
    ∧ optStrTruthy (some "123") = true
    ∧ claimC6Unmet true (some "123") none = false :=
  ⟨rfl, rfl, rfl⟩

/-- C6 amended: for `update_records` (given non-empty name and data) and
`delete_records` (given non-empty name), validation fails with an error
envelope and no network call exactly when the *requested* mode is unmet —
with `bulk=true` iff `bulk_ids` is missing or empty (regardless of `row_id`),
with `bulk=false` iff `row_id` is missing; when the requested mode is met and
the configuration is complete, a network request is issued.  (In particular,
when neither `row_id` nor `bulk=true`-with-non-empty-`bulk_ids` is satisfied,
the requested mode is unmet and validation fails; but the converse direction
of the claim's "equivalently" formulation is false.) -/
theorem C6_addressing_validation :
    (∀ (env : Env) (net : Request → NetResult) (t : String)
        (rid : Option String) (d : Option Json) (ids : Option (List String))
        (bulk : Bool), t ≠ "" → optJsonTruthy d = true →
      ((bulk && !optIdsTruthy ids) || (!bulk && !optStrTruthy rid)) = true →
      update_records env net t rid d bulk ids
        = mkRes
            (errObj (if bulk then "Bulk IDs are required for bulk updates"
              else "Row ID is required for single record update"))
            [] false false)
    ∧ (∀ (env : Env) (net : Request → NetResult) (t : String)
        (rid : Option String) (d : Option Json) (ids : Option (List String))
        (bulk : Bool), t ≠ "" → optJsonTruthy d = true →
      ((bulk && !optIdsTruthy ids) || (!bulk && !optStrTruthy rid)) = false →
      envConfigured env = true →
      (update_records env net t rid d bulk ids).requests ≠ [])
    ∧ (∀ (env : Env) (net : Request → NetResult) (t : String)
        (rid : Option String) (ids : Option (List String)) (bulk : Bool),
      t ≠ "" →
      ((bulk && !optIdsTruthy ids) || (!bulk && !optStrTruthy rid)) = true →
      delete_records env net t rid bulk ids
        = mkRes
            (errObj (if bulk then "Bulk IDs are required for bulk deletion"
              else "Row ID is required for single record deletion"))
            [] false false)
    ∧ (∀ (env : Env) (net : Request → NetResult) (t : String)
        (rid : Option String) (ids : Option (List String)) (bulk : Bool),
      t ≠ "" →
      ((bulk && !optIdsTruthy ids) || (!bulk && !optStrTruthy rid)) = false →
      envConfigured env = true →
      (delete_records env net t rid bulk ids).requests ≠ []) := by
  refine ⟨?_, ?_, ?_, ?_⟩
  · intro env net t rid d ids bulk ht hd hun
    cases bulk
    · simp only [Bool.false_and, Bool.not_false, Bool.true_and,
        Bool.false_or] at hun
      simp [update_records, ht, hd, hun]
    · simp only [Bool.true_and, Bool.not_true, Bool.false_and,
        Bool.or_false] at hun
      simp [update_records, ht, hd, hun]
  · intro env net t rid d ids bulk ht hd hun hcfg
    rw [envConfigured, Bool.and_eq_true, Bool.and_eq_true] at hcfg
    obtain ⟨⟨hu, htk⟩, hb⟩ := hcfg
    rw [Bool.or_eq_false_iff] at hun
    obtain ⟨hg1, hg2⟩ := hun
    have hcl : get_nocodb_client env
        = .ok { base_url := pyStripSlash (env.nocodb_url.getD "")
                headers := [("xc-token", env.api_token.getD ""),
                            ("Content-Type", "application/json")]
                timeout := 30 } := by
      simp [get_nocodb_client, hu, htk]
    rcases hgt : get_table_id env net t with ⟨res, reqs⟩
    have hr : reqs = [tablesListReq (env.base_id.getD "")] := by
      have h5 := get_table_id_requests env net t hb
      rw [hgt] at h5
      exact h5
    subst hr
    cases res
    · simp [update_records, ht, hd, hg1, hg2, hcl, hgt, mkRes]
    · simp only [update_records, ht, hd, hg1, hg2, hcl, hgt, ne_eq,
        Bool.not_eq_true, if_neg, if_false]
      repeat' split
      all_goals simp_all [mkRes]
  · intro env net t rid ids bulk ht hun
    cases bulk
    · simp only [Bool.false_and, Bool.not_false, Bool.true_and,
        Bool.false_or] at hun
      simp [delete_records, ht, hun]
    · simp only [Bool.true_and, Bool.not_true, Bool.false_and,
        Bool.or_false] at hun
      simp [delete_records, ht, hun]
  · intro env net t rid ids bulk ht hun hcfg
    rw [envConfigured, Bool.and_eq_true, Bool.and_eq_true] at hcfg
    obtain ⟨⟨hu, htk⟩, hb⟩ := hcfg
    rw [Bool.or_eq_false_iff] at hun
    obtain ⟨hg1, hg2⟩ := hun
    have hcl : get_nocodb_client env
        = .ok { base_url := pyStripSlash (env.nocodb_url.getD "")
                headers := [("xc-token", env.api_token.getD ""),
                            ("Content-Type", "application/json")]
                timeout := 30 } := by
      simp [get_nocodb_client, hu, htk]
    rcases hgt : get_table_id env net (normalizeTableName t) with ⟨res, reqs⟩
    have hr : reqs = [tablesListReq (env.base_id.getD "")] := by
      have h5 := get_table_id_requests env net (normalizeTableName t) hb
      rw [hgt] at h5
      exact h5
    subst hr
    cases res
    · simp [delete_records, ht, hg1, hg2, hcl, hgt, mkRes]
    · simp only [delete_records, ht, hg1, hg2, hcl, hgt, ne_eq,
        Bool.not_eq_true, if_neg, if_false]
      repeat' split
      all_goals simp_all [mkRes]

/-- C6 witness: the amended theorem applied at concrete unmet and met
addressing modes, for both operations. -/
theorem C6_witness :
    update_records envC netT "T" none (some (.obj [("a", .num 1)])) true none
      = mkRes (errObj "Bulk IDs are required for bulk updates") [] false false
    ∧ (update_records envC netT "T" (some "9")
        (some (.obj [("a", .num 1)])) false none).requests ≠ []
    ∧ delete_records envC netT "T" none false none
      = mkRes (errObj "Row ID is required for single record deletion")
          [] false false
    ∧ (delete_records envC netT "T" none true (some ["1", "2"])).requests
        ≠ [] := by
  refine ⟨?_, ?_, ?_, ?_⟩
  · exact C6_addressing_validation.1 envC netT "T" none _ none true
      (by decide) rfl rfl
  · exact C6_addressing_validation.2.1 envC netT "T" (some "9") _ none false
      (by decide) rfl rfl rfl
  · exact C6_addressing_validation.2.2.1 envC netT "T" none none false
      (by decide) rfl
  · exact C6_addressing_validation.2.2.2 envC netT "T" none (some ["1", "2"])
      true (by decide) rfl rfl

/-! ### C7 -/

/-- C7: in bulk mode with non-empty `bulk_ids` and non-empty `data`,
`update_records` PATCHes the bulk endpoint with body exactly
`{ids: bulk_ids, data: data}` — the same `data` for every identifier,
whatever `row_id` holds; in non-bulk mode with a `row_id` it PATCHes the
single-record endpoint with body exactly `data`; on a 2xx response the
backend's JSON body is returned verbatim. -/
theorem C7_update_request_shapes :
    (∀ (env : Env) (net : Request → NetResult) (t : String)
        (rid : Option String) (d : Json) (ids : List String) (c : Client)
        (tid : Json) (reqs0 : List Request) (resp : HttpResponse) (j : Json),
      t ≠ "" → d.pyTruthy = true → ids ≠ [] →
      get_nocodb_client env = .ok c →
      get_table_id env net t = (.ok tid, reqs0) →
      net (bulkPatchReq tid ids d) = .ok resp →
      is2xx resp.status = true →
      resp.jsonBody = .ok j →
      update_records env net t rid (some d) true (some ids)
        = mkRes j (reqs0 ++ [bulkPatchReq tid ids d]) true true)
    ∧ (∀ (env : Env) (net : Request → NetResult) (t rid : String) (d : Json)
        (c : Client) (tid : Json) (reqs0 : List Request)
        (resp : HttpResponse) (j : Json),
      t ≠ "" → d.pyTruthy = true → rid ≠ "" →
      get_nocodb_client env = .ok c →
      get_table_id env net t = (.ok tid, reqs0) →
      net (singlePatchReq tid rid d) = .ok resp →
      is2xx resp.status = true →
      resp.jsonBody = .ok j →
      update_records env net t (some rid) (some d) false none
        = mkRes j (reqs0 ++ [singlePatchReq tid rid d]) true true) := by
  constructor
  · intro env net t rid d ids c tid reqs0 resp j ht hd hids hcl hres hnet h2 hj
    have hIds : optIdsTruthy (some ids) = true := by
      simpa [optIdsTruthy] using hids
    simp [update_records, ht, optJsonTruthy, hd, hIds, hcl, hres, hnet, h2, hj]
  · intro env net t rid d c tid reqs0 resp j ht hd hrid hcl hres hnet h2 hj
    have hRid : optStrTruthy (some rid) = true := by
      simpa [optStrTruthy] using hrid
    simp [update_records, ht, optJsonTruthy, hd, hRid, hcl, hres, hnet, h2,
      hj, optIdsTruthy]

/-- C7 witness: the theorem applied against the fixture backend, in both
modes. -/
theorem C7_witness :
    update_records envC netT "T" none (some (.obj [("status", .str "inactive")]))
        true (some ["1", "2"])
      = mkRes (.obj [("ok", .bool true)])
          ([tablesListReq "b1"]
            ++ [bulkPatchReq (.str "tblA") ["1", "2"]
                  (.obj [("status", .str "inactive")])])
          true true
    ∧ update_records envC netT "T" (some "9")
        (some (.obj [("status", .str "inactive")])) false none
      = mkRes (.obj [("ok", .bool true)])
          ([tablesListReq "b1"]
            ++ [singlePatchReq (.str "tblA") "9"
                  (.obj [("status", .str "inactive")])])
          true true :=
  ⟨C7_update_request_shapes.1 envC netT "T" none _ ["1", "2"]
      { base_url := "http://x"
        headers := [("xc-token", "tok"), ("Content-Type", "application/json")]
        timeout := 30 }
      (.str "tblA") [tablesListReq "b1"] okBodyResp (.obj [("ok", .bool true)])
      (by decide) rfl (by decide) rfl rfl rfl rfl rfl,
   C7_update_request_shapes.2 envC netT "T" "9" _
      { base_url := "http://x"
        headers := [("xc-token", "tok"), ("Content-Type", "application/json")]
        timeout := 30 }
      (.str "tblA") [tablesListReq "b1"] okBodyResp (.obj [("ok", .bool true)])
      (by decide) rfl (by decide) rfl rfl rfl rfl rfl⟩

/-! ### C1 -/

/-- C1 counterexample: `update_field` on a backend 404 returns an envelope
with *no* `status_code` field and a message that is not
"HTTP error: " + body — it is the exception string wrapped in the
operation-specific prefix — refuting the claim that every operation maps a
backend non-2xx response to
`{error: true, status_code: <int>, message: "HTTP error: " + <body>}`. -/
theorem C1_counterexample :
    is2xx resp404.status = false
    ∧ net404 (updateFieldReq "b1" "f1" (.obj [("title", .str "X")]))
        = .ok resp404
    ∧ (update_field envC net404 "f1" (.obj [("title", .str "X")])).result.field
        "status_code" = none
    ∧ (update_field envC net404 "f1" (.obj [("title", .str "X")])).result
        = errObj ("Failed to update field 'f1' in base 'b1': "
            ++ httpStatusErrorStr resp404) :=
  ⟨rfl, rfl, rfl, rfl⟩

/-- C1 amended: every failure becomes an `{error: true, message: ...}`
envelope rather than an escaping exception, but the shapes differ by
operation: the five table operations map a backend non-2xx response on their
own record/metadata call to
`{error: true, status_code, message: "HTTP error: " + <body text>}`, and
configuration failures in retrieve (likewise update/delete) get the
"Error: " prefix, while `create_records` and `get_schema` wrap ValueError
failures (configuration, resolution) in an operation-specific phrase naming
the table instead of the "Error: " prefix; `update_field` and `list_tables`
normalize *every* failure, backend non-2xx included, to
`{error: true, message: "<operation-specific phrase>: " + str(e)}` with no
`status_code` field. -/
theorem C1_error_normalization :
    (∀ (env : Env) (net : Request → NetResult) (t rid : String) (c : Client)
        (tid : Json) (reqs0 : List Request) (resp : HttpResponse),
      t ≠ "" → rid ≠ "" →
      get_nocodb_client env = .ok c →
      get_table_id env net (normalizeTableName t) = (.ok tid, reqs0) →
      net (singleRecordReq tid rid) = .ok resp →
      is2xx resp.status = false →
      (retrieve_records env net t (some rid)).result = httpErrObj resp)
    ∧ (∀ (env : Env) (net : Request → NetResult) (t : String) (d : Json)
        (bulk : Bool) (payload : Json) (c : Client) (tid : Json)
        (reqs0 : List Request) (resp : HttpResponse),
      t ≠ "" → d.pyTruthy = true →
      coerceCreateData bulk d = .ok payload →
      get_nocodb_client env = .ok c →
      get_table_id env net t = (.ok tid, reqs0) →
      net (createReq bulk tid payload) = .ok resp →
      is2xx resp.status = false →
      (create_records env net t d bulk).result = httpErrObj resp)
    ∧ (∀ (env : Env) (net : Request → NetResult) (t : String) (d : Json)
        (ids : List String) (c : Client) (tid : Json) (reqs0 : List Request)
        (resp : HttpResponse),
      t ≠ "" → d.pyTruthy = true → ids ≠ [] →
      get_nocodb_client env = .ok c →
      get_table_id env net t = (.ok tid, reqs0) →
      net (bulkPatchReq tid ids d) = .ok resp →
      is2xx resp.status = false →
      (update_records env net t none (some d) true (some ids)).result
        = httpErrObj resp)
    ∧ (∀ (env : Env) (net : Request → NetResult) (t rid : String) (c : Client)
        (tid : Json) (reqs0 : List Request) (resp : HttpResponse),
      t ≠ "" → rid ≠ "" →
      get_nocodb_client env = .ok c →
      get_table_id env net (normalizeTableName t) = (.ok tid, reqs0) →
      net (singleDeleteReq tid rid) = .ok resp →
      is2xx resp.status = false →
      (delete_records env net t (some rid)).result = httpErrObj resp)
    ∧ (∀ (env : Env) (net : Request → NetResult) (t : String) (c : Client)
        (tid : Json) (reqs0 : List Request) (resp : HttpResponse),
      t ≠ "" →
      get_nocodb_client env = .ok c →
      get_table_id env net t = (.ok tid, reqs0) →
      net (schemaReq tid) = .ok resp →
      is2xx resp.status = false →
      (get_schema env net t).result = httpErrObj resp)
    ∧ (∀ (env : Env) (net : Request → NetResult) (t m : String),
      t ≠ "" →
      get_nocodb_client env = .error (.valueError m) →
      retrieve_records env net t
        = mkRes (errObj ("Error: " ++ m)) [] false false)
    ∧ (∀ (env : Env) (net : Request → NetResult) (t : String) (d : Json)
        (bulk : Bool) (payload : Json) (c : Client) (m : String)
        (reqs : List Request),
      t ≠ "" → d.pyTruthy = true →
      coerceCreateData bulk d = .ok payload →
      get_nocodb_client env = .ok c →
      get_table_id env net t = (.error (.valueError m), reqs) →
      create_records env net t d bulk
        = mkRes (errObj ("Error creating records in '" ++ t ++ "': " ++ m))
            reqs true true)
    ∧ (∀ (env : Env) (net : Request → NetResult) (t : String) (c : Client)
        (m : String) (reqs : List Request),
      t ≠ "" →
      get_nocodb_client env = .ok c →
      get_table_id env net t = (.error (.valueError m), reqs) →
      get_schema env net t
        = mkRes (errObj ("Error retrieving schema for '" ++ t ++ "': " ++ m))
            reqs true true)
    ∧ (∀ (env : Env) (net : Request → NetResult) (fid : String) (fd : Json)
        (base : String) (c : Client) (resp : HttpResponse),
      env.base_id = some base → base ≠ "" → fid ≠ "" →
      fd.isObj = true → fd.pyTruthy = true →
      get_nocodb_client env = .ok c →
      net (updateFieldReq base fid fd) = .ok resp →
      is2xx resp.status = false →
      update_field env net fid fd
        = mkRes
            (errObj ("Failed to update field '" ++ fid ++ "' in base '"
              ++ base ++ "': " ++ httpStatusErrorStr resp))
            [updateFieldReq base fid fd] true false)
    ∧ (∀ (env : Env) (net : Request → NetResult) (base : String)
        (page page_size : Int) (sort : Option String) (m2m : Bool)
        (c : Client) (resp : HttpResponse),
      env.base_id = some base →
      get_nocodb_client env = .ok c →
      net (listTablesReq base page page_size sort m2m) = .ok resp →
      is2xx resp.status = false →
      list_tables env net page page_size sort m2m
        = mkRes
            (errObj ("Failed to list tables in base '" ++ base ++ "': "
              ++ httpStatusErrorStr resp))
            [listTablesReq base page page_size sort m2m] true false)
    ∧ (∀ m : String,
      (errObj m).field "error" = some (.bool true)
        ∧ (errObj m).field "message" = some (.str m)
        ∧ (errObj m).field "status_code" = none) := by
  refine ⟨?_, ?_, ?_, ?_, ?_, ?_, ?_, ?_, ?_, ?_, ?_⟩
  · intro env net t rid c tid reqs0 resp ht hrid hcl hres hnet h2
    have hRid : optStrTruthy (some rid) = true := by
      simpa [optStrTruthy] using hrid
    simp [retrieve_records, ht, hRid, hcl, hres, hnet, h2]
    rfl
  · intro env net t d bulk payload c tid reqs0 resp ht hd hco hcl hres hnet h2
    simp [create_records, ht, hd, hco, hcl, hres, hnet, h2]
    rfl
  · intro env net t d ids c tid reqs0 resp ht hd hids hcl hres hnet h2
    have hIds : optIdsTruthy (some ids) = true := by
      simpa [optIdsTruthy] using hids
    simp [update_records, ht, optJsonTruthy, hd, hIds, hcl, hres, hnet, h2]
    rfl
  · intro env net t rid c tid reqs0 resp ht hrid hcl hres hnet h2
    have hRid : optStrTruthy (some rid) = true := by
      simpa [optStrTruthy] using hrid
    simp [delete_records, ht, hRid, hcl, hres, hnet, h2, optIdsTruthy]
    rfl
  · intro env net t c tid reqs0 resp ht hcl hres hnet h2
    simp [get_schema, ht, hcl, hres, hnet, h2]
    rfl
  · intro env net t m ht hcl
    simp [retrieve_records, ht, hcl, recordOpsHandle, pyStr]
  · intro env net t d bulk payload c m reqs ht hd hco hcl hres
    simp [create_records, ht, hd, hco, hcl, hres, createHandle]
  · intro env net t c m reqs ht hcl hres
    simp [get_schema, ht, hcl, hres, schemaHandle]
  · intro env net fid fd base c resp hbase hb hfid hobj hne hcl hnet h2
    have hB : optStrTruthy env.base_id = true := by
      simp [optStrTruthy, hbase, hb]
    have hBd : env.base_id.getD "" = base := by simp [hbase]
    simp [update_field, hB, hBd, hfid, hobj, hne, hcl, hnet, h2,
      updateFieldHandle, pyStr]
  · intro env net base page page_size sort m2m c resp hbase hcl hnet h2
    simp [list_tables, hbase, hcl, hnet, h2, listTablesHandle, pyStr]
  · intro m
    exact ⟨rfl, rfl, rfl⟩

/-- C1 witness: the amended theorem applied against the fixture backends —
a 404 on a single-record retrieval produces the status-carrying envelope,
while the same 404 on `update_field` produces the status-less one. -/
theorem C1_witness :
    (retrieve_records envC netT404 "T" (some "9")).result = httpErrObj resp404
    ∧ update_field envC net404 "f2" (.obj [("title", .str "Y")])
      = mkRes
          (errObj ("Failed to update field 'f2' in base 'b1': "
            ++ httpStatusErrorStr resp404))
          [updateFieldReq "b1" "f2" (.obj [("title", .str "Y")])] true false
    ∧ (errObj "Error: boom").field "status_code" = none := by
  refine ⟨?_, ?_, ?_⟩
  · exact C1_error_normalization.1 envC netT404 "T" "9"
      { base_url := "http://x"
        headers := [("xc-token", "tok"), ("Content-Type", "application/json")]
        timeout := 30 }
      (.str "tblA") [tablesListReq "b1"] resp404 (by decide) (by decide)
      rfl rfl rfl rfl
  · exact C1_error_normalization.2.2.2.2.2.2.2.2.1 envC net404 "f2" _ "b1"
      { base_url := "http://x"
        headers := [("xc-token", "tok"), ("Content-Type", "application/json")]
        timeout := 30 }
      resp404 rfl (by decide) (by decide) rfl rfl rfl rfl rfl
  · exact (C1_error_normalization.2.2.2.2.2.2.2.2.2.2 "Error: boom").2.2

/-! ### C2 -/

/-- C2 counterexample: a successful `update_field` call acquires an httpx
client and returns without closing it (there is no `finally` clause), and so
does `list_tables`, refuting the claim that all seven operations release the
client they acquire on every exit path. -/
theorem C2_counterexample :
    (update_field envC netOk "f1" (.obj [("title", .str "X")])).acquired = true
    ∧ (update_field envC netOk "f1" (.obj [("title", .str "X")])).closed
        = false
    ∧ (list_tables envC netOk).acquired = true
    ∧ (list_tables envC netOk).closed = false :=
  ⟨rfl, rfl, rfl, rfl⟩

/-- C2 amended: `retrieve_records`, `create_records`, `update_records`,
`delete_records` and `get_schema` close the client on every exit path on
which it was acquired (their `finally` clause), so for them closed = acquired
on every input; `update_field` and `list_tables` never close the client they
acquire, on any path. -/
theorem C2_client_release :
    (∀ (env : Env) (net : Request → NetResult) (t : String)
        (rid fl : Option String) (l o : Option Int) (s f : Option String),
      (retrieve_records env net t rid fl l o s f).closed
        = (retrieve_records env net t rid fl l o s f).acquired)
    ∧ (∀ (env : Env) (net : Request → NetResult) (t : String) (d : Json)
        (b : Bool),
      (create_records env net t d b).closed
        = (create_records env net t d b).acquired)
    ∧ (∀ (env : Env) (net : Request → NetResult) (t : String)
        (rid : Option String) (d : Option Json) (b : Bool)
        (ids : Option (List String)),
      (update_records env net t rid d b ids).closed
        = (update_records env net t rid d b ids).acquired)
    ∧ (∀ (env : Env) (net : Request → NetResult) (t : String)
        (rid : Option String) (b : Bool) (ids : Option (List String)),
      (delete_records env net t rid b ids).closed
        = (delete_records env net t rid b ids).acquired)
    ∧ (∀ (env : Env) (net : Request → NetResult) (t : String),
      (get_schema env net t).closed = (get_schema env net t).acquired)
    ∧ (∀ (env : Env) (net : Request → NetResult) (fid : String) (fd : Json),
      (update_field env net fid fd).closed = false)
    ∧ (∀ (env : Env) (net : Request → NetResult) (p ps : Int)
        (s : Option String) (m : Bool),
      (list_tables env net p ps s m).closed = false) := by
  refine ⟨?_, ?_, ?_, ?_, ?_, ?_, ?_⟩
  · intro env net t rid fl l o s f
    simp only [retrieve_records]
    repeat' split
    all_goals rfl
  · intro env net t d b
    simp only [create_records]
    repeat' split
    all_goals rfl
  · intro env net t rid d b ids
    simp only [update_records]
    repeat' split
    all_goals rfl
  · intro env net t rid b ids
    simp only [delete_records]
    repeat' split
    all_goals rfl
  · intro env net t
    simp only [get_schema]
    repeat' split
    all_goals rfl
  · intro env net fid fd
    simp only [update_field]
    repeat' split
    all_goals rfl
  · intro env net p ps s m
    simp only [list_tables]
    repeat' split
    all_goals rfl

end NocodbMCP
